import Mathlib

/-!
Shallow embedding of the SOC dashboard backend server (the Express/MySQL
server file of the repository): the `alerts` table, the WHERE/ORDER BY/LIMIT
pipeline of `GET /api/alerts`, the aggregates of `GET /api/dashboard/overview`
and `GET /api/threats/geographic`, the socket.io broadcaster, and the two
INSERT paths that create alerts (`generateSampleSecurityData` and
`simulateRealTimeAlerts`).

Conventions: timestamps are integer seconds (`NOW()` is a parameter `now`);
nullable SQL columns are `Option`; the DECIMAL coordinate columns are modelled
as scaled integers (the queries only ever test them for NULL and group by
equality); `raw_event` JSON is kept as an opaque optional string.
-/

namespace SOC

/-- Column `severity ENUM('Critical','High','Medium','Low','Informational')`
of the `alerts` table. -/
inductive Severity
  | Critical
  | High
  | Medium
  | Low
  | Informational
  deriving DecidableEq, Repr

/-- Column `status ENUM('New','Assigned','In Progress','Resolved','False Positive')`
of the `alerts` table. -/
inductive Status
  | New
  | Assigned
  | InProgress
  | Resolved
  | FalsePositive
  deriving DecidableEq, Repr

/-- The string MySQL stores and returns for a `severity` ENUM member. -/
def severityLabel : Severity → String
  | .Critical => "Critical"
  | .High => "High"
  | .Medium => "Medium"
  | .Low => "Low"
  | .Informational => "Informational"

/-- The string MySQL stores and returns for a `status` ENUM member. -/
def statusLabel : Status → String
  | .New => "New"
  | .Assigned => "Assigned"
  | .InProgress => "In Progress"
  | .Resolved => "Resolved"
  | .FalsePositive => "False Positive"

/-- One row of the `alerts` table, column for column as declared in
`createTables`. -/
structure Alert where
  id : Nat
  alert_type : String
  severity : Severity
  source_ip : Option String
  destination_ip : Option String
  source_port : Option Int
  destination_port : Option Int
  protocol : Option String
  description : Option String
  raw_event : Option String
  status : Status
  created_at : Int
  updated_at : Int
  resolved_at : Option Int
  assigned_to : Option Nat
  country_code : Option String
  city : Option String
  latitude : Option Int
  longitude : Option Int
  deriving DecidableEq, Repr

/-- Lexicographic comparison of character lists by code point; this is the
string comparison MySQL applies to the (all-ASCII, case-distinct) severity
labels. -/
def charListLt : List Char → List Char → Bool
  | [], [] => false
  | [], _ :: _ => true
  | _ :: _, [] => false
  | a :: s, b :: t => a.toNat < b.toNat || (a.toNat == b.toNat && charListLt s t)

/-- String comparison used by MySQL when it compares ENUM values as strings. -/
def strLt (s t : String) : Bool :=
  charListLt s.toList t.toList

/-- Occurrence of `pat` as a contiguous sublist, i.e. the semantics of
`col LIKE CONCAT(CHAR(37), pat, CHAR(37))` for a pattern with no wildcards. -/
def containsSub (pat : List Char) : List Char → Bool
  | [] => pat.isEmpty
  | c :: rest => List.isPrefixOf pat (c :: rest) || containsSub pat rest

/-- `s LIKE` a doubly-wildcarded pattern: substring containment. -/
def likeContains (s pat : String) : Bool :=
  containsSub pat.toList s.toList

/-- `col LIKE ...` on a nullable column: `NULL LIKE pat` is not TRUE, so the
row is filtered out. -/
def optLike (col : Option String) (pat : String) : Bool :=
  match col with
  | none => false
  | some v => likeContains v pat

/-- Dashboard threat levels as produced by `GET /api/dashboard/overview`. -/
inductive ThreatLevel
  | Green
  | Yellow
  | Red
  deriving DecidableEq, Repr

/-- The `criticalAlerts` count of `GET /api/dashboard/overview`:
`SELECT COUNT(*) FROM alerts WHERE severity IN ('Critical','High') AND
created_at >= DATE_SUB(NOW(), INTERVAL 1 HOUR)`. -/
def criticalHighLastHour (store : List Alert) (now : Int) : Nat :=
  (store.filter (fun a =>
    (severityLabel a.severity == "Critical" || severityLabel a.severity == "High") &&
    decide (now - 3600 ≤ a.created_at))).length

/-- The threat-level computation of `GET /api/dashboard/overview`:
`let threatLevel = 'Green'; if (count > 10) threatLevel = 'Red';
else if (count > 5) threatLevel = 'Yellow';`. -/
def threatLevel (store : List Alert) (now : Int) : ThreatLevel :=
  let count := criticalHighLastHour store now
  if count > 10 then .Red
  else if count > 5 then .Yellow
  else .Green

/-- Stated from the spec's words (§3 ThreatLevel: `count > 10 → Red`,
`5 < count ≤ 10 → Yellow`, else `Green`), to be compared with `threatLevel`. -/
def threatLevelSpec (count : Nat) : ThreatLevel :=
  if count > 10 then .Red
  else if 5 < count ∧ count ≤ 10 then .Yellow
  else .Green

/-- An arbitrary but fixed fully-populated alert row used to build concrete
stores in the theorems below. -/
def baseAlert : Alert where
  id := 1
  alert_type := "Port Scan"
  severity := .Informational
  source_ip := some "10.0.0.1"
  destination_ip := some "192.168.1.100"
  source_port := some 443
  destination_port := some 443
  protocol := some "TCP"
  description := some "Port Scan detected from 10.0.0.1"
  raw_event := none
  status := .New
  created_at := 0
  updated_at := 0
  resolved_at := none
  assigned_to := none
  country_code := none
  city := none
  latitude := none
  longitude := none

/-- A store holding exactly ten Critical+High alerts created within the last
hour of `now = 10000`: one Critical and nine High. -/
def boundaryStore : List Alert :=
  { baseAlert with id := 10, severity := .Critical, created_at := 10000 } ::
    (List.range 9).map (fun i =>
      { baseAlert with id := i + 1, severity := .High, created_at := 10000 })

/-- The query parameters of `GET /api/alerts` that contribute WHERE
predicates; `none` means the parameter was absent from the request. -/
structure AlertFilter where
  severity : Option String
  status : Option String
  alertType : Option String
  sourceIp : Option String
  destinationIp : Option String
  timeRange : Option Int
  search : Option String
  deriving DecidableEq, Repr

/-- The request with no filter parameters. -/
def noFilter : AlertFilter :=
  ⟨none, none, none, none, none, none, none⟩

/-- An absent query parameter contributes no predicate; a supplied one
contributes its predicate. -/
def optCheck {α : Type} (o : Option α) (p : α → Bool) : Bool :=
  match o with
  | none => true
  | some x => p x

/-- The WHERE clause of `GET /api/alerts`: starting from `WHERE 1=1`, each
supplied parameter appends one AND-ed predicate, exactly as the handler
concatenates them. -/
def matchesFilter (f : AlertFilter) (now : Int) (a : Alert) : Bool :=
  optCheck f.severity (fun s => severityLabel a.severity == s) &&
  optCheck f.status (fun s => statusLabel a.status == s) &&
  optCheck f.alertType (fun t => a.alert_type == t) &&
  optCheck f.sourceIp (fun p => optLike a.source_ip p) &&
  optCheck f.destinationIp (fun p => optLike a.destination_ip p) &&
  optCheck f.timeRange (fun h => decide (now - h * 3600 ≤ a.created_at)) &&
  optCheck f.search (fun s =>
    likeContains a.alert_type s || optLike a.description s || optLike a.source_ip s)

/-- The rows satisfying the WHERE clause: both the item query and the count
query of `GET /api/alerts` are built over this same predicate chain. -/
def matchingAlerts (store : List Alert) (f : AlertFilter) (now : Int) : List Alert :=
  store.filter (matchesFilter f now)

/-- The `countQuery` of `GET /api/alerts`:
`SELECT COUNT(*) as total FROM alerts WHERE ...` with the shared WHERE chain. -/
def countAlerts (store : List Alert) (f : AlertFilter) (now : Int) : Nat :=
  (matchingAlerts store f now).length

/-- The sort relation requested by `ORDER BY created_at DESC` — the only sort
key the query names. -/
def createdDesc (a b : Alert) : Prop :=
  b.created_at ≤ a.created_at

instance : DecidableRel createdDesc :=
  fun a b => Int.decLe b.created_at a.created_at

instance : IsTotal Alert createdDesc :=
  ⟨fun a b => le_total b.created_at a.created_at⟩

instance : IsTrans Alert createdDesc :=
  ⟨fun _ _ _ h1 h2 => le_trans h2 h1⟩

/-- The response shape of `GET /api/alerts`: `{alerts, pagination: {page,
limit, total, pages}}`. -/
structure QueryResult where
  items : List Alert
  page : Nat
  limit : Nat
  total : Nat
  pages : Nat
  deriving DecidableEq, Repr

/-- The `GET /api/alerts` handler: shared WHERE chain, `countQuery` for
`total`, `ORDER BY created_at DESC LIMIT ? OFFSET ?` with
`OFFSET = (page - 1) * limit`, and `pages = Math.ceil(total / limit)` (for a
positive integer `limit` this ceiling is `(total + limit - 1) / limit`).
The handler applies `parseInt(limit)` as given; it never clamps it.
`ORDER BY created_at DESC` names no tiebreaker, so SQL leaves the relative
order of rows with equal `created_at` unspecified; the embedding realizes one
admissible order, a stable sort of the table rows. -/
def queryAlerts (store : List Alert) (f : AlertFilter) (now : Int) (page limit : Nat) :
    QueryResult where
  items :=
    ((List.insertionSort createdDesc (matchingAlerts store f now)).drop
      ((page - 1) * limit)).take limit
  page := page
  limit := limit
  total := countAlerts store f now
  pages := (countAlerts store f now + limit - 1) / limit

/-- States that filter `g` carries every predicate of filter `f` — with the
same value, or a narrower time window — and possibly further predicates. -/
def FilterExtends (g f : AlertFilter) : Bool :=
  (f.severity == none || g.severity == f.severity) &&
  (f.status == none || g.status == f.status) &&
  (f.alertType == none || g.alertType == f.alertType) &&
  (f.sourceIp == none || g.sourceIp == f.sourceIp) &&
  (f.destinationIp == none || g.destinationIp == f.destinationIp) &&
  (match f.timeRange, g.timeRange with
   | none, _ => true
   | some _, none => false
   | some tf, some tg => decide (tg ≤ tf)) &&
  (f.search == none || g.search == f.search)

/-- One aggregated row of `GET /api/threats/geographic`. -/
structure GeoCluster where
  country_code : Option String
  city : Option String
  latitude : Option Int
  longitude : Option Int
  alert_count : Nat
  max_severity : Option String
  latest_alert : Option Int
  deriving DecidableEq, Repr

/-- The `GROUP BY country_code, city, latitude, longitude` grouping key. -/
def geoKey (a : Alert) : Option String × Option String × Option Int × Option Int :=
  (a.country_code, a.city, a.latitude, a.longitude)

/-- The rows the geographic query aggregates:
`WHERE latitude IS NOT NULL AND longitude IS NOT NULL AND
created_at >= DATE_SUB(NOW(), INTERVAL 24 HOUR)`. -/
def geoRows (store : List Alert) (now : Int) : List Alert :=
  store.filter (fun a =>
    a.latitude.isSome && a.longitude.isSome && decide (now - 86400 ≤ a.created_at))

/-- MySQL `MAX()` over the `severity` ENUM column. Per the MySQL reference
manual (aggregate function descriptions), `MIN()` and `MAX()` compare ENUM
columns by their string value, not by the member's relative position in the
enumeration, so this is a string maximum over the severity labels. -/
def mysqlMaxLabel (l : List String) : Option String :=
  l.foldl (fun acc s =>
    match acc with
    | none => some s
    | some m => if strLt m s then some s else some m) none

/-- MySQL `MAX(created_at)` over a group. -/
def mysqlMaxTime (l : List Int) : Option Int :=
  l.foldl (fun acc t =>
    match acc with
    | none => some t
    | some m => if m < t then some t else some m) none

/-- The aggregated row for one grouping key. -/
def clusterFor (rows : List Alert) (k : Option String × Option String × Option Int × Option Int) :
    GeoCluster where
  country_code := k.1
  city := k.2.1
  latitude := k.2.2.1
  longitude := k.2.2.2
  alert_count := (rows.filter (fun a => geoKey a == k)).length
  max_severity := mysqlMaxLabel ((rows.filter (fun a => geoKey a == k)).map
    (fun a => severityLabel a.severity))
  latest_alert := mysqlMaxTime ((rows.filter (fun a => geoKey a == k)).map
    (fun a => a.created_at))

/-- The `GET /api/threats/geographic` handler: windowed non-NULL-coordinate
rows, grouped by the four-tuple key, one aggregated row per distinct key. -/
def geographicThreats (store : List Alert) (now : Int) : List GeoCluster :=
  (((geoRows store now).map geoKey).dedup).map (clusterFor (geoRows store now))

/-- One step of `GROUP BY alert_type` accumulation over the scanned rows:
a first occurrence appends a group with count 1, repeats bump the count. -/
def bumpCount : List (String × Nat) → String → List (String × Nat)
  | [], t => [(t, 1)]
  | (s, n) :: rest, t =>
    if s = t then (s, n + 1) :: rest else (s, n) :: bumpCount rest t

/-- `SELECT alert_type, COUNT(*) as count ... GROUP BY alert_type`, groups in
first-occurrence order of the scanned rows. -/
def groupCounts (l : List Alert) : List (String × Nat) :=
  l.foldl (fun acc a => bumpCount acc a.alert_type) []

/-- The sort relation requested by `ORDER BY count DESC` — the only sort key
the `topAlertTypes` query names. -/
def countDesc (x y : String × Nat) : Prop :=
  y.2 ≤ x.2

instance : DecidableRel countDesc :=
  fun x y => Nat.decLe y.2 x.2

instance : IsTotal (String × Nat) countDesc :=
  ⟨fun x y => le_total y.2 x.2⟩

instance : IsTrans (String × Nat) countDesc :=
  ⟨fun _ _ _ h1 h2 => le_trans h2 h1⟩

/-- The `topAlertTypes` query of `GET /api/dashboard/overview`:
7-day window, `GROUP BY alert_type ORDER BY count DESC LIMIT 5`. No secondary
sort key is named, so the relative order of groups with equal counts is
unspecified; the embedding realizes one admissible order, a stable sort of the
groups in first-occurrence order. -/
def topAlertTypes (store : List Alert) (now : Int) : List (String × Nat) :=
  (List.insertionSort countDesc
    (groupCounts (store.filter (fun a => decide (now - 7 * 86400 ≤ a.created_at))))).take 5

/-- The INSERT of `generateSampleSecurityData`: its column list names neither
`updated_at` (schema default `CURRENT_TIMESTAMP`, here the insertion time
`now`) nor `resolved_at` (schema default NULL) nor `assigned_to`, while
`status` is drawn at random from all five labels, `Resolved` included, and
`created_at` is an explicit timestamp within the last 30 days. -/
def sampleInsert (store : List Alert) (alert_type : String) (severity : Severity)
    (source_ip destination_ip : String) (source_port destination_port : Int)
    (protocol description raw_event : String) (status : Status) (created_at : Int)
    (country_code city : String) (latitude longitude : Int) (now : Int) : List Alert :=
  store ++ [{
    id := store.length + 1
    alert_type := alert_type
    severity := severity
    source_ip := some source_ip
    destination_ip := some destination_ip
    source_port := some source_port
    destination_port := some destination_port
    protocol := some protocol
    description := some description
    raw_event := some raw_event
    status := status
    created_at := created_at
    updated_at := now
    resolved_at := none
    assigned_to := none
    country_code := some country_code
    city := some city
    latitude := some latitude
    longitude := some longitude }]

/-- The INSERT of `simulateRealTimeAlerts`: status is the literal `'New'`,
`destination_ip` the literal `'192.168.1.100'`; ports, protocol, `raw_event`,
`created_at`, `updated_at`, `resolved_at` and `assigned_to` are absent from
the column list and take their schema defaults. -/
def realtimeInsert (store : List Alert) (alert_type : String) (severity : Severity)
    (source_ip description country_code city : String) (latitude longitude : Int)
    (now : Int) : List Alert :=
  store ++ [{
    id := store.length + 1
    alert_type := alert_type
    severity := severity
    source_ip := some source_ip
    destination_ip := some "192.168.1.100"
    source_port := none
    destination_port := none
    protocol := none
    description := some description
    raw_event := none
    status := .New
    created_at := now
    updated_at := now
    resolved_at := none
    assigned_to := none
    country_code := some country_code
    city := some city
    latitude := some latitude
    longitude := some longitude }]

/-- Alert stores reachable from the empty table through the alert-creating
operations present in the server source; no operation of the source ever
mutates an existing alert row. -/
inductive Reachable : List Alert → Prop
  | empty : Reachable []
  | sample {store alert_type severity source_ip destination_ip source_port destination_port
      protocol description raw_event status created_at country_code city latitude longitude
      now} (h : Reachable store) :
      Reachable (sampleInsert store alert_type severity source_ip destination_ip source_port
        destination_port protocol description raw_event status created_at country_code city
        latitude longitude now)
  | realtime {store alert_type severity source_ip description country_code city latitude
      longitude now} (h : Reachable store) :
      Reachable (realtimeInsert store alert_type severity source_ip description country_code
        city latitude longitude now)

/-- Error outcomes of the spec's `updateStatus` (§4.1 and §7). -/
inductive UpdateError
  | NotFound
  | InvalidTransition
  deriving DecidableEq, Repr

/-- Modelled from the spec: the repository's server has no endpoint that
mutates an alert's status — `updateStatus` exists only in the spec's Alert
Store contract (§4.1). Following its words: unknown id fails with `NotFound`;
setting `Resolved` or `False Positive` on an alert whose current status is
`New` fails with `InvalidTransition` with no mutation; otherwise the row is
updated, `resolved_at` being set exactly on the transition into `Resolved`.
The pair returned is (store after the call, error if any). -/
def updateStatus (store : List Alert) (id : Nat) (newStatus : Status) (now : Int) :
    List Alert × Option UpdateError :=
  match store.find? (fun a => a.id == id) with
  | none => (store, some .NotFound)
  | some a =>
    if a.status == .New && (newStatus == .Resolved || newStatus == .FalsePositive) then
      (store, some .InvalidTransition)
    else
      (store.map (fun b =>
        if b.id == id then
          { b with
            status := newStatus
            updated_at := now
            resolved_at := if newStatus == .Resolved then some now else b.resolved_at }
        else b), none)

/-- A connected socket.io session: the rooms it has joined via `join-role`,
and the `new-alert` payloads delivered to it, in delivery order. -/
structure Session where
  sid : Nat
  rooms : List String
  delivered : List Alert
  deriving DecidableEq, Repr

/-- The `join-role` handler: `socket.join(role)` adds the session to the named
room. -/
def joinRole (sessions : List Session) (sid : Nat) (role : String) : List Session :=
  sessions.map (fun s => if s.sid == sid then { s with rooms := s.rooms ++ [role] } else s)

/-- `io.emit('new-alert', alert)`: the payload is delivered to every currently
connected session; room membership plays no part. -/
def publish (sessions : List Session) (a : Alert) : List Session :=
  sessions.map (fun s => { s with delivered := s.delivered ++ [a] })

/-- Successive publishes, in call order. -/
def publishAll (sessions : List Session) (alerts : List Alert) : List Session :=
  alerts.foldl publish sessions

/-- A geolocated Critical alert in New York, inside the 24-hour window of
`now = 100000`. -/
def geoAlertCritical : Alert :=
  { baseAlert with
    id := 1, severity := .Critical, created_at := 100000,
    country_code := some "US", city := some "New York",
    latitude := some 40, longitude := some (-74) }

/-- A geolocated Medium alert at the same location and window. -/
def geoAlertMedium : Alert :=
  { baseAlert with
    id := 2, severity := .Medium, created_at := 100000,
    country_code := some "US", city := some "New York",
    latitude := some 40, longitude := some (-74) }

/-- A store whose single geographic group holds one Critical and one Medium
alert. -/
def geoStore : List Alert :=
  [geoAlertCritical, geoAlertMedium]

/-- A store produced by one `generateSampleSecurityData` insertion whose
random status came out `Resolved`. -/
def badStore : List Alert :=
  sampleInsert [] "Brute Force Attack" .High "203.0.113.5" "192.168.0.10" 4444 22 "TCP"
    "Brute Force Attack detected from 203.0.113.5" "event" .Resolved 500 "US" "New York"
    40 (-74) 1000

/-- A store produced by one `simulateRealTimeAlerts` insertion. -/
def liveStore : List Alert :=
  realtimeInsert [] "Port Scan" .Critical "198.51.100.7"
    "Real-time Port Scan detected from 198.51.100.7" "CN" "Beijing" 39 116 2000

/-- The row `liveStore` holds, written out field by field. -/
def liveAlert : Alert where
  id := 1
  alert_type := "Port Scan"
  severity := .Critical
  source_ip := some "198.51.100.7"
  destination_ip := some "192.168.1.100"
  source_port := none
  destination_port := none
  protocol := none
  description := some "Real-time Port Scan detected from 198.51.100.7"
  raw_event := none
  status := .New
  created_at := 2000
  updated_at := 2000
  resolved_at := none
  assigned_to := none
  country_code := some "CN"
  city := some "Beijing"
  latitude := some 39
  longitude := some 116

/-- Two alerts sharing one `created_at`, inserted in id order. -/
def tieAlert1 : Alert :=
  { baseAlert with id := 1, created_at := 100 }

/-- Second alert of the tie, with the larger id. -/
def tieAlert2 : Alert :=
  { baseAlert with id := 2, created_at := 100 }

/-- A store holding the two tied alerts in insertion order. -/
def tieStore : List Alert :=
  [tieAlert1, tieAlert2]

/-- A store of 501 alerts, to exercise a request with `limit` above 500. -/
def bigStore : List Alert :=
  (List.range 501).map (fun i => { baseAlert with id := i + 1 })

/-- A High alert created at `now`, matching severity=High and timeRange=1. -/
def w5Alert : Alert :=
  { baseAlert with id := 1, severity := .High, created_at := 100000 }

/-- A Low alert two hours old: inside timeRange=24, outside timeRange=1. -/
def w5Old : Alert :=
  { baseAlert with id := 2, severity := .Low, created_at := 100000 - 7200 }

/-- The two-alert store for the filter-refinement example. -/
def w5Store : List Alert :=
  [w5Alert, w5Old]

/-- The request carrying only `timeRange=24`. -/
def w5Wide : AlertFilter :=
  ⟨none, none, none, none, none, some 24, none⟩

/-- The request carrying `severity=High` and `timeRange=1`. -/
def w5Narrow : AlertFilter :=
  ⟨some "High", none, none, none, none, some 1, none⟩

/-- Two alert types with equal counts, the lexicographically larger type
scanned first. -/
def c7Store : List Alert :=
  [{ baseAlert with id := 1, alert_type := "SQL Injection" },
   { baseAlert with id := 2, alert_type := "Brute Force Attack" }]

/-- A one-alert store whose alert is in status `New`. -/
def w8Store : List Alert :=
  [{ baseAlert with id := 1 }]

/-- Two connected sessions: one joined to a role room, one in no room. -/
def demoSessions : List Session :=
  [⟨1, ["SOC Analyst"], []⟩, ⟨2, [], []⟩]

/-- Two alerts published in sequence. -/
def demoAlerts : List Alert :=
  [{ baseAlert with id := 7 }, { baseAlert with id := 8 }]

/-- A three-alert store for the pagination example. -/
def w10Store : List Alert :=
  [{ baseAlert with id := 1 }, { baseAlert with id := 2 }, { baseAlert with id := 3 }]

/-! Helper lemmas shared by the claim theorems. -/

/-- The returned page of `GET /api/alerts` is drawn from the rows matching the
shared WHERE chain. -/
theorem mem_items_matches {store : List Alert} {f : AlertFilter} {now : Int}
    {page limit : Nat} {a : Alert} (h : a ∈ (queryAlerts store f now page limit).items) :
    a ∈ store ∧ matchesFilter f now a = true := by
  have h0 : a ∈ ((List.insertionSort createdDesc (matchingAlerts store f now)).drop
      ((page - 1) * limit)).take limit := h
  have h1 : a ∈ List.insertionSort createdDesc (matchingAlerts store f now) :=
    ((List.take_sublist _ _).trans (List.drop_sublist _ _)).subset h0
  have h2 : a ∈ matchingAlerts store f now := (List.mem_insertionSort createdDesc).mp h1
  exact List.mem_filter.mp h2

/-- A supplied parameter with the same value passes its predicate along. -/
theorem optCheck_mono {α : Type} {fo go : Option α} {p : α → Bool}
    (he : fo = none ∨ go = fo) (hg : optCheck go p = true) : optCheck fo p = true := by
  rcases he with he | he
  · rw [he]; rfl
  · rw [he] at hg; exact hg

/-- Rows passing the WHERE chain of an extending request pass the WHERE chain
of the request it extends. -/
theorem matchesFilter_mono {g f : AlertFilter} {now : Int} {a : Alert}
    (hext : FilterExtends g f = true) (hg : matchesFilter g now a = true) :
    matchesFilter f now a = true := by
  simp only [FilterExtends, Bool.and_eq_true, Bool.or_eq_true, beq_iff_eq] at hext
  obtain ⟨⟨⟨⟨⟨⟨he1, he2⟩, he3⟩, he4⟩, he5⟩, he6⟩, he7⟩ := hext
  simp only [matchesFilter, Bool.and_eq_true] at hg
  obtain ⟨⟨⟨⟨⟨⟨hg1, hg2⟩, hg3⟩, hg4⟩, hg5⟩, hg6⟩, hg7⟩ := hg
  simp only [matchesFilter, Bool.and_eq_true]
  refine ⟨⟨⟨⟨⟨⟨optCheck_mono he1 hg1, optCheck_mono he2 hg2⟩, optCheck_mono he3 hg3⟩,
    optCheck_mono he4 hg4⟩, optCheck_mono he5 hg5⟩, ?_⟩, optCheck_mono he7 hg7⟩
  cases hf : f.timeRange with
  | none => rfl
  | some tf =>
    cases hgr : g.timeRange with
    | none => rw [hf, hgr] at he6; exact absurd he6 (by simp)
    | some tg =>
      rw [hf, hgr] at he6
      rw [hgr] at hg6
      have htg : tg ≤ tf := of_decide_eq_true he6
      have hc : now - tg * 3600 ≤ a.created_at := of_decide_eq_true hg6
      exact decide_eq_true (by omega)

/-! Claim theorems. -/

/-- Claim C1: the threat level of `GET /api/dashboard/overview` is a pure
function of the count of Critical+High alerts created within the last rolling
hour, with `count > 10 → Red`, `5 < count ≤ 10 → Yellow`, else `Green`; in
particular a store holding exactly ten such alerts (one Critical, nine High,
all within the hour) yields Yellow, not Red. -/
theorem threatLevel_pure_count_thresholds :
    (∀ (store : List Alert) (now : Int),
      threatLevel store now = threatLevelSpec (criticalHighLastHour store now)) ∧
    threatLevel boundaryStore 10000 = ThreatLevel.Yellow ∧
    criticalHighLastHour boundaryStore 10000 = 10 := by
  have key : ∀ c : Nat,
      (if c > 10 then ThreatLevel.Red else if c > 5 then ThreatLevel.Yellow
        else ThreatLevel.Green) = threatLevelSpec c := by
    intro c
    unfold threatLevelSpec
    split_ifs with h1 h2 h3 <;> first | rfl | (exfalso; omega)
  exact ⟨fun store now => key (criticalHighLastHour store now), by decide, by decide⟩

/-- Claim C2 (code bug): the geographic query computes `MAX(severity)` over a
MySQL ENUM column, which `MAX()` compares by string value; on a group holding
one Critical and one Medium alert the returned `max_severity` is "Medium",
although the group contains a Critical alert and the severity rank places
Critical above Medium. -/
theorem geographic_max_severity_enum_string_bug :
    geographicThreats geoStore 100000 =
      [{ country_code := some "US", city := some "New York", latitude := some 40,
         longitude := some (-74), alert_count := 2, max_severity := some "Medium",
         latest_alert := some 100000 }] ∧
    geoAlertCritical ∈ geoRows geoStore 100000 ∧
    geoAlertCritical.severity = Severity.Critical ∧
    geoKey geoAlertCritical = geoKey geoAlertMedium ∧
    some "Medium" ≠ some (severityLabel Severity.Critical) := by decide

/-- Claim C3 (counterexample): one `generateSampleSecurityData` insertion with
random status `Resolved` reaches a store holding an alert whose status is
`Resolved` while `resolved_at` is NULL, so the claimed equivalence fails. -/
theorem resolved_invariant_counterexample :
    Reachable badStore ∧
    ¬(∀ a ∈ badStore, (a.resolved_at ≠ none ↔ a.status = Status.Resolved)) :=
  ⟨Reachable.sample Reachable.empty, by decide⟩

/-- Claim C3 (amended): no operation of the source ever writes `resolved_at`,
so after every operation every alert has `resolved_at = NULL`; hence
`resolved_at` non-null implies status `Resolved` holds (vacuously), while the
converse direction of the claimed equivalence does not. -/
theorem resolved_at_always_null (store : List Alert) (h : Reachable store) :
    ∀ a ∈ store, a.resolved_at = none ∧
      (a.resolved_at ≠ none → a.status = Status.Resolved) := by
  induction h with
  | empty => intro a ha; exact absurd ha (List.not_mem_nil a)
  | sample h ih =>
    intro a ha
    rcases List.mem_append.mp ha with ha | ha
    · exact ih a ha
    · rcases List.mem_singleton.mp ha with rfl
      exact ⟨rfl, fun hc => absurd rfl hc⟩
  | realtime h ih =>
    intro a ha
    rcases List.mem_append.mp ha with ha | ha
    · exact ih a ha
    · rcases List.mem_singleton.mp ha with rfl
      exact ⟨rfl, fun hc => absurd rfl hc⟩

/-- Witness for C3 (amended) at a store reached by one real-time insertion. -/
theorem resolved_at_always_null_witness :
    liveAlert.resolved_at = none ∧
    (liveAlert.resolved_at ≠ none → liveAlert.status = Status.Resolved) :=
  resolved_at_always_null liveStore (Reachable.realtime Reachable.empty) liveAlert (by decide)

/-- Claim C4 (counterexample): `ORDER BY created_at DESC` names no tiebreaker,
and the realized order returns the two alerts with equal `created_at` in table
order — the smaller id first, not the larger. -/
theorem query_order_tie_counterexample :
    (queryAlerts tieStore noFilter 0 1 50).items = [tieAlert1, tieAlert2] ∧
    tieAlert1.created_at = tieAlert2.created_at ∧
    tieAlert1.id < tieAlert2.id := by decide

/-- Claim C4 (amended): the returned page of `GET /api/alerts` is ordered by
`created_at` descending; the query specifies no secondary key, so no
id-descending tie order is guaranteed. -/
theorem query_order_created_at_desc (store : List Alert) (f : AlertFilter) (now : Int)
    (page limit : Nat) :
    ((queryAlerts store f now page limit).items).Pairwise createdDesc := by
  have hp : List.Pairwise createdDesc
      (List.insertionSort createdDesc (matchingAlerts store f now)) :=
    List.sorted_insertionSort createdDesc (matchingAlerts store f now)
  exact hp.sublist ((List.take_sublist _ _).trans (List.drop_sublist _ _))

/-- Claim C5: the WHERE predicates of `GET /api/alerts` are AND-combined and
an absent parameter constrains nothing: every returned item satisfies all the
supplied predicates, and a request extending another with further predicates
matches a sublist of the rows the weaker request matches. -/
theorem query_filters_and_combined (store : List Alert) (f g : AlertFilter) (now : Int)
    (page limit : Nat) (a : Alert)
    (hext : FilterExtends g f = true)
    (hmem : a ∈ (queryAlerts store g now page limit).items) :
    matchesFilter g now a = true ∧ matchesFilter f now a = true ∧
    a ∈ matchingAlerts store f now ∧
    List.Sublist (matchingAlerts store g now) (matchingAlerts store f now) := by
  obtain ⟨hstore, hg⟩ := mem_items_matches hmem
  have hf : matchesFilter f now a = true := matchesFilter_mono hext hg
  refine ⟨hg, hf, List.mem_filter.mpr ⟨hstore, hf⟩, ?_⟩
  exact List.monotone_filter_right store (fun b hb => matchesFilter_mono hext hb)

/-- Witness for C5: severity=High AND timeRange=1 versus timeRange=24 on a
concrete two-alert store. -/
theorem query_filters_and_combined_witness :
    matchesFilter w5Narrow 100000 w5Alert = true ∧
    matchesFilter w5Wide 100000 w5Alert = true ∧
    w5Alert ∈ matchingAlerts w5Store w5Wide 100000 ∧
    List.Sublist (matchingAlerts w5Store w5Narrow 100000)
      (matchingAlerts w5Store w5Wide 100000) :=
  query_filters_and_combined w5Store w5Wide w5Narrow 100000 1 50 w5Alert
    (by decide) (by decide)

/-- Claim C6 (counterexample): the handler passes `parseInt(limit)` straight
into `LIMIT ?` with no clamp, so a request with `limit = 501` against 501
matching alerts returns 501 items — more than the claimed maximum of 500. -/
theorem query_limit_exceeds_500 :
    ¬((queryAlerts bigStore noFilter 0 1 501).items.length ≤ 500) := by
  have hall : matchingAlerts bigStore noFilter 0 = bigStore :=
    List.filter_eq_self.mpr (fun a _ => rfl)
  have hlen : bigStore.length = 501 := by
    simp only [bigStore, List.length_map, List.length_range]
  have hitems : (queryAlerts bigStore noFilter 0 1 501).items.length = 501 := by
    simp only [queryAlerts, List.length_take, List.length_drop, List.length_insertionSort,
      hall, hlen]
    norm_num
  omega

/-- Claim C6 (amended): the query applies the requested limit directly — the
returned page never holds more than the requested `limit` items, but no
maximum such as 500 is imposed on `limit` itself. -/
theorem query_items_le_requested_limit (store : List Alert) (f : AlertFilter) (now : Int)
    (page limit : Nat) :
    (queryAlerts store f now page limit).items.length ≤ limit := by
  show (((List.insertionSort createdDesc (matchingAlerts store f now)).drop
    ((page - 1) * limit)).take limit).length ≤ limit
  exact List.length_take_le limit _

/-- Claim C7 (counterexample): `ORDER BY count DESC` names no secondary key;
with two alert types of equal count the realized order returns the
lexicographically larger type first. -/
theorem topAlertTypes_tie_counterexample :
    topAlertTypes c7Store 0 = [("SQL Injection", 1), ("Brute Force Attack", 1)] ∧
    strLt "Brute Force Attack" "SQL Injection" = true := by decide

/-- Claim C7 (amended): `topAlertTypes` is ordered by count descending and
holds at most five entries; the relative order of types with equal counts is
not fixed by the query. -/
theorem topAlertTypes_sorted_count_desc (store : List Alert) (now : Int) :
    (topAlertTypes store now).Pairwise countDesc ∧ (topAlertTypes store now).length ≤ 5 := by
  constructor
  · have hp : List.Pairwise countDesc (List.insertionSort countDesc
        (groupCounts (store.filter (fun a => decide (now - 7 * 86400 ≤ a.created_at))))) :=
      List.sorted_insertionSort countDesc _
    exact hp.sublist (List.take_sublist _ _)
  · exact List.length_take_le 5 _

/-- Claim C8 (spec-modelled): `updateStatus` fails with `InvalidTransition`
and leaves the store untouched whenever the caller sets `Resolved` or
`False Positive` on an alert whose current status is `New`. -/
theorem updateStatus_invalid_transition_from_new (store : List Alert) (id : Nat)
    (newStatus : Status) (now : Int) (a : Alert)
    (hfind : store.find? (fun b => b.id == id) = some a)
    (hnew : a.status = Status.New)
    (htgt : newStatus = Status.Resolved ∨ newStatus = Status.FalsePositive) :
    updateStatus store id newStatus now = (store, some UpdateError.InvalidTransition) := by
  unfold updateStatus
  rw [hfind]
  rcases htgt with h | h <;> subst h <;> simp [hnew]

/-- Witness for C8: resolving a fresh `New` alert directly is rejected. -/
theorem updateStatus_invalid_transition_from_new_witness :
    updateStatus w8Store 1 Status.Resolved 999 = (w8Store, some UpdateError.InvalidTransition) :=
  updateStatus_invalid_transition_from_new w8Store 1 Status.Resolved 999
    { baseAlert with id := 1 } (by decide) rfl (Or.inl rfl)

/-- Claim C9: on each publish, `io.emit('new-alert', ...)` delivers the
payload to every currently connected session exactly once, whatever rooms the
session has joined, and successive publishes reach each session in call
order: after publishing the list `alerts`, each session's delivery log is its
old log extended by exactly `alerts`, with its room membership untouched. -/
theorem publish_delivers_to_all_sessions_in_order (sessions : List Session)
    (alerts : List Alert) (i : Nat) (h : i < sessions.length) :
    ∃ h2 : i < (publishAll sessions alerts).length,
      ((publishAll sessions alerts).get ⟨i, h2⟩).delivered =
        (sessions.get ⟨i, h⟩).delivered ++ alerts ∧
      ((publishAll sessions alerts).get ⟨i, h2⟩).rooms = (sessions.get ⟨i, h⟩).rooms ∧
      ((publishAll sessions alerts).get ⟨i, h2⟩).sid = (sessions.get ⟨i, h⟩).sid := by
  induction alerts generalizing sessions with
  | nil =>
    refine ⟨h, ?_, ?_, ?_⟩ <;> simp [publishAll]
  | cons a as ih =>
    have e : publishAll sessions (a :: as) = publishAll (publish sessions a) as := rfl
    have hlen : i < (publish sessions a).length := by
      simpa [publish] using h
    obtain ⟨h2, hd, hr, hs⟩ := ih (publish sessions a) hlen
    have hg : (publish sessions a).get ⟨i, hlen⟩ =
        { sessions.get ⟨i, h⟩ with delivered := (sessions.get ⟨i, h⟩).delivered ++ [a] } := by
      simp [publish, List.get_eq_getElem, List.getElem_map]
    rw [e]
    refine ⟨h2, ?_, ?_, ?_⟩
    · rw [hd, hg]
      simp
    · rw [hr, hg]
    · rw [hs, hg]

/-- Witness for C9 on two sessions (one in a role room, one in none) and two
published alerts. -/
theorem publish_delivers_to_all_sessions_in_order_witness :
    ∃ h2 : 0 < (publishAll demoSessions demoAlerts).length,
      ((publishAll demoSessions demoAlerts).get ⟨0, h2⟩).delivered =
        (demoSessions.get ⟨0, by decide⟩).delivered ++ demoAlerts ∧
      ((publishAll demoSessions demoAlerts).get ⟨0, h2⟩).rooms =
        (demoSessions.get ⟨0, by decide⟩).rooms ∧
      ((publishAll demoSessions demoAlerts).get ⟨0, h2⟩).sid =
        (demoSessions.get ⟨0, by decide⟩).sid :=
  publish_delivers_to_all_sessions_in_order demoSessions demoAlerts 0 (by decide)

/-- Claim C10: a `GET /api/alerts` response is internally consistent — the
echoed `page` and `limit` are the parsed request parameters, `total` counts
the rows matching the same WHERE chain that produced the items, every item
matches that chain, and `pages` is the ceiling of `total / limit` (stated by
its Galois characterization `pages ≤ c ↔ total ≤ limit * c`). -/
theorem pagination_consistent (store : List Alert) (f : AlertFilter) (now : Int)
    (page limit : Nat) (hl : 0 < limit) :
    (queryAlerts store f now page limit).page = page ∧
    (queryAlerts store f now page limit).limit = limit ∧
    (queryAlerts store f now page limit).total = (matchingAlerts store f now).length ∧
    (∀ a ∈ (queryAlerts store f now page limit).items, matchesFilter f now a = true) ∧
    (∀ c : Nat, ((queryAlerts store f now page limit).pages ≤ c ↔
      (queryAlerts store f now page limit).total ≤ limit * c)) := by
  refine ⟨rfl, rfl, rfl, fun a ha => (mem_items_matches ha).2, fun c => ?_⟩
  show (countAlerts store f now + limit - 1) / limit ≤ c ↔ countAlerts store f now ≤ limit * c
  rw [← Nat.ceilDiv_eq_add_pred_div]
  exact ceilDiv_le_iff_le_mul hl

/-- Witness for C10 on a three-alert store with page 1 and limit 2. -/
theorem pagination_consistent_witness :
    (queryAlerts w10Store noFilter 0 1 2).page = 1 ∧
    (queryAlerts w10Store noFilter 0 1 2).limit = 2 ∧
    (queryAlerts w10Store noFilter 0 1 2).total = (matchingAlerts w10Store noFilter 0).length ∧
    matchesFilter noFilter 0 { baseAlert with id := 1 } = true ∧
    ((queryAlerts w10Store noFilter 0 1 2).pages ≤ 2 ↔
      (queryAlerts w10Store noFilter 0 1 2).total ≤ 2 * 2) := by
  have h := pagination_consistent w10Store noFilter 0 1 2 (by decide)
  exact ⟨h.1, h.2.1, h.2.2.1, h.2.2.2.1 { baseAlert with id := 1 } (by decide), h.2.2.2.2 2⟩

end SOC

